import Mathlib

/-!
Shallow embedding of the Bursary Management System (Django application)
for spec verification.  Python strings are modelled as lists of
characters, Django model rows as structures, database tables as lists,
and each view's logic as an explicit state-passing function.  Form
validation results are passed in as booleans mirroring the views'
calls to is_valid(); cleaned form payloads are passed as records of
exactly the form's declared fields.
-/

/-- Python strings are modelled as lists of characters. -/
abbrev Str := List Char

/-- Converts a Lean string literal to the model's string type. -/
def lit (s : String) : Str := s.data

/-- Python truthiness of a string: nonempty. -/
def truthyStr (s : Str) : Bool := !s.isEmpty

/-- Python `a or b` over optional strings (`None` and `""` are falsy). -/
def pyOrOpt (a b : Option Str) : Option Str :=
  match a with
  | some s => if truthyStr s then some s else b
  | none => b

/-- Python `a or d` with a non-optional default string `d`. -/
def pyOrDefault (a : Option Str) (d : Str) : Str :=
  match a with
  | some s => if truthyStr s then s else d
  | none => d

/-- Python str.lower(). -/
def pyLower (s : Str) : Str := s.map Char.toLower

/-- Python str.upper(). -/
def pyUpper (s : Str) : Str := s.map Char.toUpper

/-- Python str.strip(). -/
def pyStrip (s : Str) : Str :=
  ((s.dropWhile Char.isWhitespace).reverse.dropWhile Char.isWhitespace).reverse

/-- Python str.isdigit(): nonempty and all characters are digits. -/
def pyIsDigit (s : Str) : Bool := !s.isEmpty && s.all Char.isDigit

/-- Python s.startswith(p). -/
def pyStartsWith (s p : Str) : Bool := p.isPrefixOf s

/-- One entry of MOCK_RULES (bursary/utils/mock_verification.py:10-21). -/
structure MockRule where
  idPref : Str
  nemisPref : Str
  constituency : Str
deriving DecidableEq

/-- The MOCK_RULES dict (bursary/utils/mock_verification.py:10-21). -/
def MOCK_RULES : List (Str × MockRule) :=
  [ (lit "samburu", ⟨lit "2", lit "SA", lit "Samburu West"⟩),
    (lit "nairobi", ⟨lit "1", lit "NA", lit "Westlands"⟩) ]

/-- MOCK_RULES.get(key). -/
def mockRulesGet (key : Str) : Option MockRule := MOCK_RULES.lookup key

/-- `context_name = county_name or constituency_name` followed by the
`if not context_name` guard of verify_id / verify_nemis. -/
def contextName (county_name constituency_name : Option Str) : Option Str :=
  match pyOrOpt county_name constituency_name with
  | some s => if truthyStr s then some s else none
  | none => none

/-- The four-tuple returned by verify_id / verify_nemis:
(is_valid, message, verified_county, verified_constituency). -/
structure VerifyResult where
  is_valid : Bool
  message : Str
  county : Option Str
  constituency : Option Str
deriving DecidableEq

/-- verify_id (bursary/utils/mock_verification.py:24-54). -/
def verify_id (id_number : Str) (county_name constituency_name : Option Str) :
    VerifyResult :=
  if !truthyStr id_number then
    ⟨false, lit "ID number is required.", none, none⟩
  else
    match contextName county_name constituency_name with
    | none =>
      ⟨false, lit "Site profile county/constituency not configured.", none, none⟩
    | some context_name =>
      match mockRulesGet (pyLower (pyStrip context_name)) with
      | some rules =>
        if pyStartsWith id_number rules.idPref then
          ⟨true, lit "ID verified successfully.",
            some (pyOrDefault county_name (lit "DefaultCounty")),
            some (pyOrDefault constituency_name rules.constituency)⟩
        else
          ⟨false, lit "ID " ++ id_number ++ lit " does not match " ++
            context_name ++ lit ".", none, none⟩
      | none =>
        if pyIsDigit id_number && decide (6 ≤ id_number.length) then
          ⟨true, lit "ID verified under default rules.",
            some (pyOrDefault county_name (lit "DefaultCounty")),
            some (pyOrDefault constituency_name (lit "DefaultConstituency"))⟩
        else
          ⟨false, lit "Invalid ID format.", none, none⟩

/-- verify_nemis (bursary/utils/mock_verification.py:57-91). -/
def verify_nemis (nemis_number : Str)
    (county_name constituency_name guardian_id : Option Str) : VerifyResult :=
  if !truthyStr nemis_number then
    ⟨false, lit "NEMIS number is required.", none, none⟩
  else
    match contextName county_name constituency_name with
    | none =>
      ⟨false, lit "Site profile county/constituency not configured.", none, none⟩
    | some context_name =>
      match mockRulesGet (pyLower (pyStrip context_name)) with
      | some rules =>
        if pyStartsWith (pyUpper nemis_number) rules.nemisPref then
          if (match guardian_id with
              | some g => truthyStr g && pyStartsWith g rules.idPref
              | none => false) then
            ⟨true, lit "NEMIS verified successfully.",
              some (pyOrDefault county_name (lit "DefaultCounty")),
              some (pyOrDefault constituency_name rules.constituency)⟩
          else
            ⟨true, lit "NEMIS verified (guardian check skipped).",
              some (pyOrDefault county_name (lit "DefaultCounty")),
              some (pyOrDefault constituency_name rules.constituency)⟩
        else
          ⟨false, lit "NEMIS " ++ nemis_number ++ lit " does not match " ++
            context_name ++ lit ".", none, none⟩
      | none =>
        if decide (4 ≤ nemis_number.length) then
          ⟨true, lit "NEMIS verified under default rules.",
            some (pyOrDefault county_name (lit "DefaultCounty")),
            some (pyOrDefault constituency_name (lit "DefaultConstituency"))⟩
        else
          ⟨false, lit "Invalid NEMIS format.", none, none⟩

example : (verify_id (lit "123456") (some (lit "Kitui")) none).is_valid = true := by
  decide

example : (verify_id (lit "2345") (some (lit "Samburu")) none).is_valid = true := by
  decide

example : (verify_nemis (lit "sa1234") (some (lit "Samburu")) none none).is_valid
    = true := by decide

/-! ## Data model (bursary/models.py), restricted to the fields the
embedded operations read or write.  Rows referenced by foreign key are
identified by numeric primary keys. -/

abbrev CountyId := Nat
abbrev ConstituencyId := Nat
abbrev WardId := Nat
abbrev UserId := Nat
abbrev StudentId := Nat
abbrev AppId := Nat

/-- County (models.py:12-19). -/
structure County where
  id : CountyId
  name : Str
deriving DecidableEq

/-- Constituency (models.py:22-31). -/
structure Constituency where
  id : ConstituencyId
  name : Str
  county : CountyId
deriving DecidableEq

/-- Student (models.py:49-117); identity, contact and scope fields. -/
structure Student where
  id : StudentId
  user : UserId
  first_name : Str
  middle_name : Option Str
  last_name : Str
  id_number : Option Str
  admission_number : Str
  nemis_number : Option Str
  email : Str
  phone : Str
  institution : Str
  county : Option CountyId
  constituency : Option ConstituencyId
deriving DecidableEq

/-- Student.clean (models.py:108-113): empty strings in the unique
identity fields are stored as NULL.  Student.save (models.py:115-117)
always applies it before persisting. -/
def Student.clean (s : Student) : Student :=
  { s with
    id_number :=
      match s.id_number with
      | some v => if v.isEmpty then none else some v
      | none => none,
    nemis_number :=
      match s.nemis_number with
      | some v => if v.isEmpty then none else some v
      | none => none }

/-- Guardian (models.py:123-133). -/
structure Guardian where
  student : StudentId
  name : Str
  relationship : Str
  guardian_id_number : Option Str
  occupation : Option Str
  income : Int
  guardian_phone : Str
deriving DecidableEq

/-- Sibling (models.py:136-143). -/
structure Sibling where
  student : StudentId
  name : Str
  school : Str
  class_level : Str
deriving DecidableEq

/-- BursaryApplication (models.py:161-186).  Decimal amounts are
modelled as integers. -/
structure BursaryApplication where
  id : AppId
  student : StudentId
  constituency : Option ConstituencyId
  ward : Option WardId
  fees_required : Int
  fees_paid : Int
  amount_requested : Int
  amount_awarded : Option Int
  date_applied : Int
  bursary_type : Str
  status : Str
  feedback : Option Str
deriving DecidableEq

/-- SupportingDocument (models.py:196-217); the file is kept as its name. -/
structure SupportingDocument where
  application : AppId
  document_type : Str
  file : Str
deriving DecidableEq

/-- SiteProfile (models.py:223-280), scope and deadline fields.  Dates
are modelled as integers. -/
structure SiteProfile where
  county : Option CountyId
  constituency : Option ConstituencyId
  bursary_type : Str
  is_active : Bool
  application_deadline : Option Int
deriving DecidableEq

/-- SiteProfile.clean (models.py:255-260): a profile must be tied to
either a county or a constituency, not both and not neither. -/
def SiteProfile.clean (p : SiteProfile) : Except Str Unit :=
  if p.county.isSome && p.constituency.isSome then
    .error (lit "A SiteProfile cannot be linked to both a county and a constituency.")
  else if !p.county.isSome && !p.constituency.isSome then
    .error (lit "A SiteProfile must be linked to either a county or a constituency.")
  else
    .ok ()

/-- SiteProfile.save (models.py:262-264): clean() runs before the row
is persisted; a validation error leaves the table untouched. -/
def SiteProfile.save (db : List SiteProfile) (p : SiteProfile) :
    Except Str (List SiteProfile) :=
  match p.clean with
  | .error e => .error e
  | .ok _ => .ok (db ++ [p])

/-- SiteProfile.is_application_open (models.py:266-267), evaluated at
the current date `today`. -/
def SiteProfile.is_application_open (today : Int) (p : SiteProfile) : Bool :=
  match p.application_deadline with
  | none => true
  | some d => decide (today ≤ d)

/-- SiteProfile.get_active (models.py:278-280). -/
def SiteProfile.get_active (db : List SiteProfile) : Option SiteProfile :=
  (db.filter (·.is_active)).head?

/-- OfficerProfile (models.py:286-311). -/
structure OfficerProfile where
  user : UserId
  constituency : Option ConstituencyId
  bursary_type : Str
  is_active : Bool
  is_manager : Bool
deriving DecidableEq

/-- The mutable tables touched by the application-submission workflow. -/
structure WorldState where
  students : List Student
  applications : List BursaryApplication
  guardians : List Guardian
  siblings : List Sibling
  documents : List SupportingDocument
deriving DecidableEq

/-! ## Officer views (bursary/views.py) -/

/-- Python `needle.lower() in hay.lower()`, the icontains lookup. -/
def icontains (hay needle : Str) : Bool :=
  decide (List.IsInfix (pyLower needle) (pyLower hay))

/-- icontains on a nullable column: NULL never matches. -/
def icontainsOpt (hay : Option Str) (needle : Str) : Bool :=
  match hay with
  | some h => icontains h needle
  | none => false

/-- The application queryset built by officer_dashboard
(views.py:434-445): scope filter on the officer's bursary_type and
constituency, then the optional ward and status GET filters (absent
parameters are modelled as none). -/
def officer_dashboard_apps (db : List BursaryApplication) (officer : OfficerProfile)
    (ward_filter : Option WardId) (status_filter : Option Str) :
    List BursaryApplication :=
  let apps := db.filter (fun a =>
    a.bursary_type == officer.bursary_type && a.constituency == officer.constituency)
  let apps :=
    match ward_filter with
    | some w => apps.filter (fun a => a.ward == some w)
    | none => apps
  match status_filter with
  | some s => apps.filter (fun a => a.status == s)
  | none => apps

/-- The application queryset built by officer_applications
(views.py:606-638): only the search query and status GET filters are
applied; the acting user's officer profile is never consulted.  The
view paginates this queryset by 20 but every row stays reachable. -/
def officer_applications (students : List Student) (db : List BursaryApplication)
    (query status : Str) : List BursaryApplication :=
  let matchesStudent := fun (a : BursaryApplication) =>
    (students.filter (fun s => s.id == a.student)).any (fun s =>
      icontains s.first_name query || icontains s.last_name query ||
      icontains s.admission_number query || icontainsOpt s.id_number query ||
      icontains s.institution query)
  let apps := if truthyStr query then db.filter matchesStudent else db
  if truthyStr status then apps.filter (fun a => a.status == status) else apps

inductive DetailResponse
  | notFound
  | redirectLogin
  | redirectDashboard
  | render (a : BursaryApplication)
deriving DecidableEq

/-- application_detail (views.py:920-944): 404 on a missing id, login
redirect without an officer profile, dashboard redirect when the
application is outside the officer's constituency/bursary_type scope. -/
def application_detail (db : List BursaryApplication)
    (officer : Option OfficerProfile) (application_id : AppId) : DetailResponse :=
  match db.find? (fun a => a.id == application_id) with
  | none => .notFound
  | some application =>
    match officer with
    | none => .redirectLogin
    | some o =>
      if application.constituency != o.constituency ||
         application.bursary_type != o.bursary_type then
        .redirectDashboard
      else
        .render application

/-- The POSTed amount_awarded field of update_application_status:
absent/empty (falsy), not parseable as a Decimal, or a parsed value. -/
inductive AmountInput
  | absent
  | invalid
  | valid (v : Int)
deriving DecidableEq

inductive StatusUpdateResponse
  | notFound
  | redirectDashboard
  | redirectDetail (id : AppId)
deriving DecidableEq

/-- update_application_status (views.py:950-989).  The in-memory status
and feedback writes before an unparseable amount are dropped because
save() is never reached on that path. -/
def update_application_status (db : List BursaryApplication)
    (officer : Option OfficerProfile) (application_id : AppId)
    (new_status feedback : Str) (amount_awarded : AmountInput) :
    StatusUpdateResponse × List BursaryApplication :=
  match db.find? (fun a => a.id == application_id) with
  | none => (.notFound, db)
  | some application =>
    if !(new_status == lit "approved" || new_status == lit "rejected") then
      (.redirectDashboard, db)
    else
      match officer with
      | none => (.redirectDashboard, db)
      | some o =>
        if application.constituency != o.constituency ||
           application.bursary_type != o.bursary_type then
          (.redirectDashboard, db)
        else
          match amount_awarded with
          | .invalid => (.redirectDetail application.id, db)
          | .absent =>
            let application :=
              { application with status := new_status, feedback := some feedback }
            (.redirectDashboard,
              db.map (fun a => if a.id == application_id then application else a))
          | .valid v =>
            let application :=
              { application with status := new_status, feedback := some feedback,
                                 amount_awarded := some v }
            (.redirectDashboard,
              db.map (fun a => if a.id == application_id then application else a))

/-! ## Student submission views (bursary/views.py) -/

inductive SubmitResponse
  | redirectLogin
  | redirectDashboard
deriving DecidableEq

/-- submit_bursary_application (views.py:1077-1101), as a function of
the result of its `getattr(request.user, "student", None)` lookup: on
some student, get_or_create resets an existing non-approved
application to pending; on None it redirects without touching the
table.  The constituency column is absent from the defaults dict and
is modelled as unset.  In the program the lookup always yields None
(see user_student_attr), so only the None path is reachable. -/
def submit_bursary_application (db : List BursaryApplication)
    (student : Option Student) (now : Int) (newAppId : AppId) :
    SubmitResponse × List BursaryApplication :=
  match student with
  | none => (.redirectLogin, db)
  | some st =>
    match db.find? (fun a => a.student == st.id) with
    | some application =>
      if application.status != lit "approved" then
        let application := { application with status := lit "pending" }
        (.redirectDashboard,
          db.map (fun a => if a.id == application.id then application else a))
      else
        (.redirectDashboard, db)
    | none =>
      (.redirectDashboard, db ++ [{
        id := newAppId, student := st.id, constituency := none, ward := none,
        fees_required := 10000, fees_paid := 0, amount_requested := 10000,
        amount_awarded := none, date_applied := now,
        bursary_type := lit "constituency", status := lit "pending",
        feedback := none }])

/-- The value of `getattr(request.user, "student", None)` at
views.py:1079: Student.user is declared with related_name
"student_profile" (models.py:50) and nothing attaches a `student`
attribute to User, so the lookup yields None on every request (the
view is also absent from urls.py). -/
def user_student_attr : Option Student := none

/-- The side effects fired by apply_bursary on success
(views.py:174-179). -/
inductive Effect
  | email (student : StudentId) (application : AppId)
  | sms (phone : Str)
deriving DecidableEq

/-- The cleaned fields of BursaryApplicationForm (forms.py:123-144). -/
structure ApplicationFormData where
  constituency : Option ConstituencyId
  ward : Option WardId
  fees_required : Int
  fees_paid : Int
  amount_requested : Int
deriving DecidableEq

/-- One member form of the sibling formset: whether cleaned_data is
nonempty, the DELETE flag, and the cleaned row. -/
structure SiblingEntry where
  hasData : Bool
  delete : Bool
  sibling : Sibling
deriving DecidableEq

/-- One member form of the supporting-document formset. -/
structure DocumentEntry where
  hasData : Bool
  delete : Bool
  document : SupportingDocument
deriving DecidableEq

/-- A POST request to apply_bursary: the five is_valid() outcomes the
view branches on and the cleaned payloads it saves.  StudentForm.save
writes its cleaned fields onto the student row and is modelled as the
`student_update` map (it cannot touch the student's id or user). -/
structure ApplyPost where
  student_form_valid : Bool
  guardian_form_valid : Bool
  application_form_valid : Bool
  sibling_formset_valid : Bool
  document_formset_valid : Bool
  student_update : Student → Student
  guardian_data : Guardian
  application_data : ApplicationFormData
  sibling_entries : List SiblingEntry
  document_entries : List DocumentEntry

inductive ApplyResponse
  | deadlineClosed
  | redirectProfileEdit
  | alreadyApplied
  | formPage
  | redirectDashboard
deriving DecidableEq

/-- apply_bursary (views.py:88-202).  `post = none` is a GET request.
A fresh application gets primary key `newAppId`, the model defaults
(status pending, bursary_type constituency) and `today` as its
auto_now_add date. -/
def apply_bursary (today : Int) (sites : List SiteProfile) (w : WorldState)
    (user : UserId) (post : Option ApplyPost) (newAppId : AppId) :
    ApplyResponse × WorldState × List Effect :=
  let site_profile := SiteProfile.get_active sites
  let closed :=
    match site_profile with
    | some sp => !sp.is_application_open today
    | none => false
  if closed then (.deadlineClosed, w, [])
  else
    match w.students.find? (fun s => s.user == user) with
    | none => (.redirectProfileEdit, w, [])
    | some student0 =>
      let student :=
        match student0.constituency, site_profile with
        | none, some sp =>
          match sp.constituency with
          | some c => { student0 with constituency := some c }
          | none => student0
        | _, _ => student0
      let w := { w with
        students := w.students.map (fun (s : Student) => if s.id == student.id then student else s) }
      if w.applications.any (fun a => a.student == student.id) then
        (.alreadyApplied, w, [])
      else
        match post with
        | none => (.formPage, w, [])
        | some p =>
          if p.student_form_valid && p.guardian_form_valid &&
             p.application_form_valid && p.sibling_formset_valid &&
             p.document_formset_valid then
            let student := p.student_update student
            let w := { w with
              students :=
                w.students.map (fun (s : Student) =>
                  if s.id == student.id then student else s) }
            let w :=
              if truthyStr p.guardian_data.name then
                { w with
                  guardians :=
                    if w.guardians.any (fun g => g.student == student.id) then
                      w.guardians.map (fun (g : Guardian) =>
                        if g.student == student.id then
                          { p.guardian_data with student := student.id }
                        else g)
                    else
                      w.guardians ++ [{ p.guardian_data with student := student.id }] }
              else w
            let application : BursaryApplication := {
              id := newAppId, student := student.id,
              constituency := student.constituency,
              ward := p.application_data.ward,
              fees_required := p.application_data.fees_required,
              fees_paid := p.application_data.fees_paid,
              amount_requested := p.application_data.amount_requested,
              amount_awarded := none, date_applied := today,
              bursary_type := lit "constituency", status := lit "pending",
              feedback := none }
            let w := { w with applications := w.applications ++ [application] }
            let w := { w with
              siblings := w.siblings ++
                ((p.sibling_entries.filter (fun (e : SiblingEntry) => e.hasData && !e.delete)).map
                  (fun (e : SiblingEntry) => { e.sibling with student := student.id })) }
            let w := { w with
              documents := w.documents ++
                ((p.document_entries.filter (fun (e : DocumentEntry) => e.hasData && !e.delete)).map
                  (fun (e : DocumentEntry) => { e.document with application := newAppId })) }
            (.redirectDashboard, w, [.email student.id newAppId, .sms student.phone])
          else
            (.formPage, w, [])

/-! ## Verified signup (bursary/forms.py) and upgrade-to-ID
(bursary/views.py) -/

/-- `county.name if county else None` for the active site's county. -/
def siteCountyName (counties : List County) (site : Option SiteProfile) :
    Option Str :=
  match site with
  | none => none
  | some sp =>
    match sp.county with
    | none => none
    | some cid => (counties.find? (fun c => c.id == cid)).map (·.name)

/-- `constituency.name if constituency else None` for the active site. -/
def siteConstituencyName (constituencies : List Constituency)
    (site : Option SiteProfile) : Option Str :=
  match site with
  | none => none
  | some sp =>
    match sp.constituency with
    | none => none
    | some cid => (constituencies.find? (fun c => c.id == cid)).map (·.name)

/-- The cleaned field values of VerifiedStudentSignupForm
(forms.py:167-195); absent optional text inputs are empty strings. -/
structure SignupFormData where
  first_name : Str
  middle_name : Str
  last_name : Str
  admission_number : Str
  email : Str
  id_type : Str
  id_number : Str
  nemis_number : Str
  guardian_id_number : Str
  password1 : Str
  password2 : Str
  agree_to_terms : Bool
deriving DecidableEq

/-- VerifiedStudentSignupForm.clean (forms.py:222-270): password match,
terms, and identity verification against the active site's scope. -/
def signup_clean (sites : List SiteProfile) (counties : List County)
    (constituencies : List Constituency) (f : SignupFormData) :
    Except Str Unit :=
  if truthyStr f.password1 && truthyStr f.password2 &&
     f.password1 != f.password2 then
    .error (lit "Passwords do not match.")
  else if !f.agree_to_terms then
    .error (lit "You must agree to the Terms of Use and Privacy Policy to register.")
  else
    let site := (sites.filter (·.is_active)).head?
    let county_name := siteCountyName counties site
    let constituency_name := siteConstituencyName constituencies site
    if f.id_type == lit "id" then
      if !truthyStr f.id_number then
        .error (lit "National ID is required.")
      else
        let r := verify_id f.id_number county_name constituency_name
        if !r.is_valid then .error r.message else .ok ()
    else if f.id_type == lit "nemis" then
      if !truthyStr f.nemis_number then
        .error (lit "NEMIS number is required.")
      else
        let r := verify_nemis f.nemis_number county_name constituency_name
          (some f.guardian_id_number)
        if !r.is_valid then .error r.message else .ok ()
    else
      .error (lit "Invalid identification type.")

/-- Full validation of VerifiedStudentSignupForm: the field-level
uniqueness cleans (forms.py:210-220) followed by clean(). -/
def signup_form_is_valid (existing : List Student) (sites : List SiteProfile)
    (counties : List County) (constituencies : List Constituency)
    (f : SignupFormData) : Except Str Unit :=
  if truthyStr f.id_number &&
     existing.any (fun s => s.id_number == some f.id_number) then
    .error (lit "This National ID is already registered.")
  else if truthyStr f.nemis_number &&
          existing.any (fun s => s.nemis_number == some f.nemis_number) then
    .error (lit "This NEMIS Number is already registered.")
  else
    signup_clean sites counties constituencies f

/-- VerifiedStudentSignupForm.save (forms.py:272-321): the Student row
it creates; only the field matching id_type is stored, the other is
NULL.  Model-level Student.clean runs on save. -/
def signup_save (f : SignupFormData) (user : UserId) (sid : StudentId) :
    Student :=
  Student.clean {
    id := sid, user := user,
    first_name := f.first_name, middle_name := some f.middle_name,
    last_name := f.last_name,
    id_number := if f.id_type == lit "id" then some f.id_number else none,
    admission_number := f.admission_number,
    nemis_number := if f.id_type == lit "nemis" then some f.nemis_number else none,
    email := f.email, phone := lit "", institution := lit "",
    county := none, constituency := none }

/-- The student-row update performed by upgrade_to_id_view on a valid
form (views.py:299-312): the new national ID is stored and the NEMIS
number is retired. -/
def upgrade_to_id (student : Student) (new_id : Str) : Student :=
  { student with id_number := some new_id, nemis_number := none }

/-! ## Shared helper lemmas -/

/-- Every rule MOCK_RULES can return is one of its two entries. -/
theorem mockRulesGet_cases (k : Str) (r : MockRule)
    (h : mockRulesGet k = some r) :
    r = ⟨lit "2", lit "SA", lit "Samburu West"⟩ ∨
    r = ⟨lit "1", lit "NA", lit "Westlands"⟩ := by
  unfold mockRulesGet MOCK_RULES at h
  simp only [List.lookup] at h
  split at h
  · exact Or.inl (Option.some.inj h).symm
  · split at h
    · exact Or.inr (Option.some.inj h).symm
    · exact absurd h (by simp)

/-- An uppercase-invariant pattern that prefixes a string also prefixes
its uppercasing. -/
theorem pyStartsWith_upper (s p : Str) (hp : pyUpper p = p)
    (h : pyStartsWith s p = true) : pyStartsWith (pyUpper s) p = true := by
  unfold pyStartsWith at h ⊢
  rw [List.isPrefixOf_iff_prefix] at h ⊢
  have hm := h.map Char.toUpper
  rwa [show (List.map Char.toUpper p) = pyUpper p from rfl, hp] at hm

/-- A nonempty pattern never prefixes the empty string. -/
theorem pyStartsWith_nil (p : Str) (hp : p ≠ []) :
    pyStartsWith [] p = false := by
  cases p with
  | nil => exact absurd rfl hp
  | cons a t => rfl

/-! ## C6: scoped mock verification -/

/-- C6 counterexample: with the samburu rule (nemis prefix "SA"),
verify_nemis accepts "sa1234" although it does not start with "SA", so
is_valid is not "exactly when the given NEMIS number starts with that
rule's nemis_prefix" — the code compares case-insensitively. -/
theorem c6_counterexample :
    mockRulesGet (pyLower (pyStrip (lit "Samburu"))) =
      some ⟨lit "2", lit "SA", lit "Samburu West"⟩ ∧
    pyStartsWith (lit "sa1234") (lit "SA") = false ∧
    (verify_nemis (lit "sa1234") (some (lit "Samburu")) none none).is_valid =
      true := by
  decide

/-- C6 (amended): for every scope name resolving to a MOCK_RULES entry,
verify_id returns is_valid exactly when the ID starts with the rule's
id prefix, and verify_nemis exactly when the uppercased NEMIS number
starts with the rule's NEMIS prefix (a case-insensitive match); every
other input is rejected with is_valid false. -/
theorem c6_prefix_rule_match (county_name constituency_name : Option Str)
    (ctx : Str) (r : MockRule)
    (hctx : contextName county_name constituency_name = some ctx)
    (hr : mockRulesGet (pyLower (pyStrip ctx)) = some r) :
    (∀ id_number,
      (verify_id id_number county_name constituency_name).is_valid =
        pyStartsWith id_number r.idPref) ∧
    (∀ nemis_number guardian_id,
      (verify_nemis nemis_number county_name constituency_name
          guardian_id).is_valid =
        pyStartsWith (pyUpper nemis_number) r.nemisPref) := by
  constructor
  · intro id_number
    by_cases hid : truthyStr id_number = true
    · simp only [verify_id, hid, Bool.not_true, Bool.false_eq_true, if_false,
        hctx, hr]
      cases hsw : pyStartsWith id_number r.idPref <;> simp [hsw]
    · have hid0 : truthyStr id_number = false := by
        cases h : truthyStr id_number
        · rfl
        · exact absurd h hid
      have hnil : id_number = [] := by
        have := List.isEmpty_iff.mp (by
          cases h : id_number.isEmpty
          · exact absurd (by simp [truthyStr, h]) hid
          · rfl)
        exact this
      subst hnil
      rcases mockRulesGet_cases _ _ hr with h2 | h2 <;> subst h2 <;>
        simp [verify_id, truthyStr] <;> decide
  · intro nemis_number guardian_id
    by_cases hnm : truthyStr nemis_number = true
    · simp only [verify_nemis, hnm, Bool.not_true, Bool.false_eq_true, if_false,
        hctx, hr]
      cases hsw : pyStartsWith (pyUpper nemis_number) r.nemisPref
      · simp [hsw]
      · simp only [hsw, if_true]
        split <;> rfl
    · have hnil : nemis_number = [] := by
        have := List.isEmpty_iff.mp (by
          cases h : nemis_number.isEmpty
          · exact absurd (by simp [truthyStr, h]) hnm
          · rfl)
        exact this
      subst hnil
      rcases mockRulesGet_cases _ _ hr with h2 | h2 <;> subst h2 <;>
        (simp [verify_nemis, truthyStr, pyUpper]; decide)

/-- C6 witness: the samburu rule applied to a matching ID. -/
theorem c6_prefix_rule_match_witness :
    (verify_id (lit "2345") (some (lit "Samburu")) none).is_valid =
      pyStartsWith (lit "2345")
        (MockRule.idPref ⟨lit "2", lit "SA", lit "Samburu West"⟩) :=
  (c6_prefix_rule_match (some (lit "Samburu")) none (lit "Samburu")
    ⟨lit "2", lit "SA", lit "Samburu West"⟩ (by decide) (by decide)).1 (lit "2345")

/-! ## C7: permissive default fallback -/

/-- C7: for a nonempty scope with no MOCK_RULES entry, verify_id
accepts exactly the all-digit IDs of length at least 6, verify_nemis
accepts exactly the NEMIS numbers of length at least 4, and every
rejected input resolves county and constituency to none. -/
theorem c7_default_fallback (county_name constituency_name : Option Str)
    (ctx : Str)
    (hctx : contextName county_name constituency_name = some ctx)
    (hr : mockRulesGet (pyLower (pyStrip ctx)) = none) :
    (∀ id_number,
      (verify_id id_number county_name constituency_name).is_valid =
        (id_number.all Char.isDigit && decide (6 ≤ id_number.length))) ∧
    (∀ id_number,
      (verify_id id_number county_name constituency_name).is_valid = false →
      (verify_id id_number county_name constituency_name).county = none ∧
      (verify_id id_number county_name constituency_name).constituency = none) ∧
    (∀ nemis_number guardian_id,
      (verify_nemis nemis_number county_name constituency_name
          guardian_id).is_valid = decide (4 ≤ nemis_number.length)) ∧
    (∀ nemis_number guardian_id,
      (verify_nemis nemis_number county_name constituency_name
          guardian_id).is_valid = false →
      (verify_nemis nemis_number county_name constituency_name
          guardian_id).county = none ∧
      (verify_nemis nemis_number county_name constituency_name
          guardian_id).constituency = none) := by
  refine ⟨?_, ?_, ?_, ?_⟩
  · intro id_number
    by_cases hid : truthyStr id_number = true
    · have hemp : id_number.isEmpty = false := by
        cases h : id_number.isEmpty
        · rfl
        · exact absurd hid (by simp [truthyStr, h])
      simp only [verify_id, hid, Bool.not_true, Bool.false_eq_true, if_false,
        hctx, hr, pyIsDigit, hemp, Bool.not_false, Bool.true_and]
      cases h : (id_number.all Char.isDigit && decide (6 ≤ id_number.length)) <;>
        simp [h]
    · have hnil : id_number = [] := by
        have := List.isEmpty_iff.mp (by
          cases h : id_number.isEmpty
          · exact absurd (by simp [truthyStr, h]) hid
          · rfl)
        exact this
      subst hnil
      simp [verify_id, truthyStr]
  · intro id_number hval
    by_cases hid : truthyStr id_number = true
    · cases h : (pyIsDigit id_number && decide (6 ≤ id_number.length)) with
      | false => simp [verify_id, hid, hctx, hr, h]
      | true => simp [verify_id, hid, hctx, hr, h] at hval
    · have hid0 : truthyStr id_number = false := by
        cases h : truthyStr id_number
        · rfl
        · exact absurd h hid
      simp [verify_id, hid0]
  · intro nemis_number guardian_id
    by_cases hnm : truthyStr nemis_number = true
    · simp only [verify_nemis, hnm, Bool.not_true, Bool.false_eq_true, if_false,
        hctx, hr]
      cases h : (decide (4 ≤ nemis_number.length)) <;> simp [h]
    · have hnil : nemis_number = [] := by
        have := List.isEmpty_iff.mp (by
          cases h : nemis_number.isEmpty
          · exact absurd (by simp [truthyStr, h]) hnm
          · rfl)
        exact this
      subst hnil
      simp [verify_nemis, truthyStr]
  · intro nemis_number guardian_id hval
    by_cases hnm : truthyStr nemis_number = true
    · cases h : (decide (4 ≤ nemis_number.length)) with
      | false => simp [verify_nemis, hnm, hctx, hr, h]
      | true => simp [verify_nemis, hnm, hctx, hr, h] at hval
    · have hnm0 : truthyStr nemis_number = false := by
        cases h : truthyStr nemis_number
        · rfl
        · exact absurd h hnm
      simp [verify_nemis, hnm0]

/-- C7 witness at the unconfigured scope "Kitui". -/
theorem c7_default_fallback_witness :
    (verify_id (lit "123456") (some (lit "Kitui")) none).is_valid =
      ((lit "123456").all Char.isDigit && decide (6 ≤ (lit "123456").length)) ∧
    (verify_nemis (lit "AB12") (some (lit "Kitui")) none none).is_valid =
      decide (4 ≤ (lit "AB12").length) :=
  ⟨(c7_default_fallback (some (lit "Kitui")) none (lit "Kitui")
      (by decide) (by decide)).1 (lit "123456"),
   (c7_default_fallback (some (lit "Kitui")) none (lit "Kitui")
      (by decide) (by decide)).2.2.1 (lit "AB12") none⟩

/-! ## C10: the guardian ID never changes the NEMIS verdict -/

/-- C10: with a MOCK_RULES entry and a NEMIS number starting with the
rule's NEMIS prefix, verify_nemis succeeds whatever the guardian ID is,
and the guardian ID can change only the returned message, never the
verdict or the resolved county/constituency. -/
theorem c10_guardian_only_message (county_name constituency_name : Option Str)
    (ctx : Str) (r : MockRule) (nemis_number : Str)
    (hctx : contextName county_name constituency_name = some ctx)
    (hr : mockRulesGet (pyLower (pyStrip ctx)) = some r)
    (hpre : pyStartsWith nemis_number r.nemisPref = true) :
    ∀ guardian_id guardian_id2 : Option Str,
      (verify_nemis nemis_number county_name constituency_name
          guardian_id).is_valid = true ∧
      (verify_nemis nemis_number county_name constituency_name
          guardian_id).county =
        (verify_nemis nemis_number county_name constituency_name
          guardian_id2).county ∧
      (verify_nemis nemis_number county_name constituency_name
          guardian_id).constituency =
        (verify_nemis nemis_number county_name constituency_name
          guardian_id2).constituency := by
  intro g g2
  rcases mockRulesGet_cases _ _ hr with h2 | h2 <;> subst h2
  all_goals
    have hne : truthyStr nemis_number = true := by
      cases nemis_number with
      | nil =>
        rw [pyStartsWith_nil _ (by decide)] at hpre
        exact absurd hpre (by simp)
      | cons a t => rfl
  all_goals
    have hup := pyStartsWith_upper nemis_number _ (by decide) hpre
  all_goals
    simp only [verify_nemis, hne, Bool.not_true, Bool.false_eq_true, if_false,
      hctx, hr, hup, if_true]
  all_goals
    refine ⟨?_, ?_, ?_⟩ <;> (repeat' split) <;> rfl

/-- C10 witness: samburu scope, matching NEMIS, two guardian inputs. -/
theorem c10_guardian_only_message_witness :
    (verify_nemis (lit "SA99") (some (lit "Samburu")) none
        (some (lit "999"))).is_valid = true :=
  ((c10_guardian_only_message (some (lit "Samburu")) none (lit "Samburu")
      ⟨lit "2", lit "SA", lit "Samburu West"⟩ (lit "SA99")
      (by decide) (by decide) (by decide)) (some (lit "999")) none).1

/-! ## C4: SiteProfile scope invariant -/

/-- C4: a successful SiteProfile save stores exactly one of county and
constituency; with both set or neither set, save raises a validation
error and persists nothing; the invariant holds across every save. -/
theorem c4_siteprofile_exactly_one (db : List SiteProfile) (p : SiteProfile)
    (hdb : ∀ q ∈ db, q.county.isSome = !q.constituency.isSome) :
    (∀ db', SiteProfile.save db p = .ok db' →
      p.county.isSome = !p.constituency.isSome ∧
      ∀ q ∈ db', q.county.isSome = !q.constituency.isSome) ∧
    (p.county.isSome = p.constituency.isSome →
      ∃ e, SiteProfile.save db p = .error e) := by
  constructor
  · intro db' hok
    by_cases hc : p.county.isSome = true <;>
      by_cases hk : p.constituency.isSome = true
    · exfalso
      simp [SiteProfile.save, SiteProfile.clean, hc, hk] at hok
    · have hk0 : p.constituency.isSome = false := by
        cases h : p.constituency.isSome
        · rfl
        · exact absurd h hk
      simp only [SiteProfile.save, SiteProfile.clean, hc, hk0, Bool.and_false,
        Bool.false_and, Bool.not_true, if_false] at hok
      have hdb' : db' = db ++ [p] := by
        cases hok2 : SiteProfile.clean p <;> simp [SiteProfile.clean, hc, hk0] at hok2 ⊢
        all_goals
          simp [SiteProfile.save, SiteProfile.clean, hc, hk0] at hok
        exact hok.symm
      subst hdb'
      refine ⟨by rw [hc, hk0]; rfl, ?_⟩
      intro q hq
      rcases List.mem_append.mp hq with h | h
      · exact hdb q h
      · have hqp : q = p := by simpa using h
        subst hqp
        rw [hc, hk0]
        rfl
    · have hc0 : p.county.isSome = false := by
        cases h : p.county.isSome
        · rfl
        · exact absurd h hc
      have hdb' : db' = db ++ [p] := by
        have := hok
        simp [SiteProfile.save, SiteProfile.clean, hc0, hk] at this
        exact this.symm
      subst hdb'
      refine ⟨by rw [hc0, hk]; rfl, ?_⟩
      intro q hq
      rcases List.mem_append.mp hq with h | h
      · exact hdb q h
      · have hqp : q = p := by simpa using h
        subst hqp
        rw [hc0, hk]
        rfl
    · exfalso
      have hc0 : p.county.isSome = false := by
        cases h : p.county.isSome
        · rfl
        · exact absurd h hc
      have hk0 : p.constituency.isSome = false := by
        cases h : p.constituency.isSome
        · rfl
        · exact absurd h hk
      simp [SiteProfile.save, SiteProfile.clean, hc0, hk0] at hok
  · intro heq
    by_cases hc : p.county.isSome = true
    · have hk : p.constituency.isSome = true := by rw [← heq]; exact hc
      exact ⟨lit "A SiteProfile cannot be linked to both a county and a constituency.",
        by simp [SiteProfile.save, SiteProfile.clean, hc, hk]⟩
    · have hc0 : p.county.isSome = false := by
        cases h : p.county.isSome
        · rfl
        · exact absurd h hc
      have hk0 : p.constituency.isSome = false := by rw [← heq]; exact hc0
      exact ⟨lit "A SiteProfile must be linked to either a county or a constituency.",
        by simp [SiteProfile.save, SiteProfile.clean, hc0, hk0]⟩

/-- C4 witness: saving a constituency-only profile into an empty table. -/
theorem c4_siteprofile_exactly_one_witness :
    (⟨none, some 5, lit "Constituency", true, none⟩ : SiteProfile).county.isSome =
      !(⟨none, some 5, lit "Constituency", true, none⟩ : SiteProfile).constituency.isSome ∧
    ∀ q ∈ [(⟨none, some 5, lit "Constituency", true, none⟩ : SiteProfile)],
      q.county.isSome = !q.constituency.isSome :=
  (c4_siteprofile_exactly_one [] ⟨none, some 5, lit "Constituency", true, none⟩
    (by simp)).1 [⟨none, some 5, lit "Constituency", true, none⟩] rfl

/-! ## C5: student identity exclusivity -/

/-- A signup form passing full validation passed clean(). -/
theorem signup_valid_clean (existing : List Student) (sites : List SiteProfile)
    (counties : List County) (constituencies : List Constituency)
    (f : SignupFormData)
    (h : signup_form_is_valid existing sites counties constituencies f = .ok ()) :
    signup_clean sites counties constituencies f = .ok () := by
  unfold signup_form_is_valid at h
  split at h
  · exact Except.noConfusion h
  · split at h
    · exact Except.noConfusion h
    · exact h

/-- clean() only accepts an id-type signup with a nonempty national ID
("National ID is required."). -/
theorem signup_clean_ok_id (sites : List SiteProfile) (counties : List County)
    (constituencies : List Constituency) (f : SignupFormData)
    (hid : f.id_type = lit "id")
    (h : signup_clean sites counties constituencies f = .ok ()) :
    truthyStr f.id_number = true := by
  unfold signup_clean at h
  split at h
  · exact Except.noConfusion h
  · split at h
    · exact Except.noConfusion h
    · simp only [hid, beq_self_eq_true, if_true] at h
      by_cases ht : truthyStr f.id_number = true
      · exact ht
      · have ht0 : truthyStr f.id_number = false := by
          cases h2 : truthyStr f.id_number
          · rfl
          · exact absurd h2 ht
        rw [ht0] at h
        simp at h

/-- clean() only accepts a nemis-type signup with a nonempty NEMIS
number ("NEMIS number is required."). -/
theorem signup_clean_ok_nemis (sites : List SiteProfile) (counties : List County)
    (constituencies : List Constituency) (f : SignupFormData)
    (hnm : f.id_type = lit "nemis")
    (h : signup_clean sites counties constituencies f = .ok ()) :
    truthyStr f.nemis_number = true := by
  unfold signup_clean at h
  split at h
  · exact Except.noConfusion h
  · split at h
    · exact Except.noConfusion h
    · simp only [hnm, beq_self_eq_true, if_true] at h
      have hne : (lit "nemis" == lit "id") = false := by decide
      rw [hne] at h
      simp only [Bool.false_eq_true, if_false] at h
      by_cases ht : truthyStr f.nemis_number = true
      · exact ht
      · have ht0 : truthyStr f.nemis_number = false := by
          cases h2 : truthyStr f.nemis_number
          · rfl
          · exact absurd h2 ht
        rw [ht0] at h
        simp at h

/-- C5: a student created by a valid verified signup stores at most
one identity field — exactly the one matching id_type, the other NULL —
and the upgrade-to-ID update writes the new national ID while nulling
the NEMIS number, preserving the invariant. -/
theorem c5_identity_exclusive (existing : List Student)
    (sites : List SiteProfile) (counties : List County)
    (constituencies : List Constituency) (f : SignupFormData)
    (user : UserId) (sid : StudentId)
    (hvalid : signup_form_is_valid existing sites counties constituencies f =
      .ok ()) :
    ((signup_save f user sid).id_number = none ∨
      (signup_save f user sid).nemis_number = none) ∧
    (f.id_type = lit "id" →
      (signup_save f user sid).id_number = some f.id_number ∧
      (signup_save f user sid).nemis_number = none) ∧
    (f.id_type = lit "nemis" →
      (signup_save f user sid).nemis_number = some f.nemis_number ∧
      (signup_save f user sid).id_number = none) ∧
    (∀ s new_id, (upgrade_to_id s new_id).id_number = some new_id ∧
      (upgrade_to_id s new_id).nemis_number = none) := by
  have hclean := signup_valid_clean _ _ _ _ _ hvalid
  refine ⟨?_, ?_, ?_, ?_⟩
  · by_cases h : f.id_type = lit "id"
    · right
      have hne : f.id_type ≠ lit "nemis" := by rw [h]; decide
      simp [signup_save, Student.clean, hne]
    · left
      simp [signup_save, Student.clean, h]
  · intro hid
    have ht := signup_clean_ok_id _ _ _ _ hid hclean
    have hnil : f.id_number ≠ [] := by
      intro hh
      rw [hh] at ht
      exact absurd ht (by decide)
    have hne : f.id_type ≠ lit "nemis" := by rw [hid]; decide
    constructor
    · simp [signup_save, Student.clean, hid, hnil]
    · simp [signup_save, Student.clean, hne]
  · intro hnm
    have ht := signup_clean_ok_nemis _ _ _ _ hnm hclean
    have hnil : f.nemis_number ≠ [] := by
      intro hh
      rw [hh] at ht
      exact absurd ht (by decide)
    have hne : f.id_type ≠ lit "id" := by rw [hnm]; decide
    constructor
    · simp [signup_save, Student.clean, hnm, hnil]
    · simp [signup_save, Student.clean, hne]
  · intro s new_id
    exact ⟨rfl, rfl⟩

/-- C5 witness: an id-type signup through the default fallback scope. -/
theorem c5_identity_exclusive_witness :
    (signup_save ⟨lit "Ann", lit "", lit "Kim", lit "ADM1", lit "a@b.ke",
        lit "id", lit "123456", lit "", lit "", lit "pw1", lit "pw1", true⟩
        7 1).id_number = some (lit "123456") ∧
    (signup_save ⟨lit "Ann", lit "", lit "Kim", lit "ADM1", lit "a@b.ke",
        lit "id", lit "123456", lit "", lit "", lit "pw1", lit "pw1", true⟩
        7 1).nemis_number = none :=
  (c5_identity_exclusive [] [⟨some 101, none, lit "County", true, none⟩]
    [⟨101, lit "Kitui"⟩] []
    ⟨lit "Ann", lit "", lit "Kim", lit "ADM1", lit "a@b.ke",
      lit "id", lit "123456", lit "", lit "", lit "pw1", lit "pw1", true⟩
    7 1 rfl).2.1 rfl

/-! ## C8: deadline gate -/

/-- C8: with an active SiteProfile, submission is open exactly when
there is no application_deadline or today is on or before it; once the
deadline has passed, apply_bursary renders the deadline-closed page,
changes nothing and sends nothing. -/
theorem c8_deadline_gate (today : Int) (sites : List SiteProfile)
    (w : WorldState) (user : UserId) (post : Option ApplyPost)
    (newAppId : AppId) (sp : SiteProfile)
    (hsp : SiteProfile.get_active sites = some sp) :
    (sp.is_application_open today = true ↔
      (sp.application_deadline = none ∨
        ∃ d, sp.application_deadline = some d ∧ today ≤ d)) ∧
    (sp.is_application_open today = false →
      apply_bursary today sites w user post newAppId =
        (.deadlineClosed, w, [])) := by
  constructor
  · constructor
    · intro h
      cases hd : sp.application_deadline with
      | none => exact Or.inl rfl
      | some d =>
        refine Or.inr ⟨d, rfl, ?_⟩
        unfold SiteProfile.is_application_open at h
        rw [hd] at h
        simpa using h
    · intro h
      unfold SiteProfile.is_application_open
      rcases h with h | ⟨d, hd, hle⟩
      · rw [h]
      · rw [hd]
        simpa using hle
  · intro hclosed
    simp only [apply_bursary, hsp, hclosed]
    rfl

/-- C8 witness: deadline day 10, submission attempted on day 11. -/
theorem c8_deadline_gate_witness :
    apply_bursary 11 [⟨none, some 3, lit "Constituency", true, some 10⟩]
        ⟨[], [], [], [], []⟩ 7 none 1 =
      (.deadlineClosed, ⟨[], [], [], [], []⟩, []) :=
  (c8_deadline_gate 11 [⟨none, some 3, lit "Constituency", true, some 10⟩]
    ⟨[], [], [], [], []⟩ 7 none 1 ⟨none, some 3, lit "Constituency", true, some 10⟩
    rfl).2 (by decide)

/-! ## C9: all-or-nothing submission -/

/-- C9: a POST whose five sub-forms do not all validate leaves the
application, guardian, sibling and document tables untouched and fires
no notification; a GET fires none either; and whenever the email/SMS
effects fire, every sub-form validated and the request ended in the
success redirect. -/
theorem c9_all_or_nothing (today : Int) (sites : List SiteProfile)
    (w : WorldState) (user : UserId) (newAppId : AppId) :
    (∀ p : ApplyPost,
      (p.student_form_valid && p.guardian_form_valid &&
        p.application_form_valid && p.sibling_formset_valid &&
        p.document_formset_valid) = false →
      (apply_bursary today sites w user (some p) newAppId).2.1.applications =
        w.applications ∧
      (apply_bursary today sites w user (some p) newAppId).2.1.guardians =
        w.guardians ∧
      (apply_bursary today sites w user (some p) newAppId).2.1.siblings =
        w.siblings ∧
      (apply_bursary today sites w user (some p) newAppId).2.1.documents =
        w.documents ∧
      (apply_bursary today sites w user (some p) newAppId).2.2 = []) ∧
    ((apply_bursary today sites w user none newAppId).2.2 = []) ∧
    (∀ p : ApplyPost,
      (apply_bursary today sites w user (some p) newAppId).2.2 ≠ [] →
      (p.student_form_valid && p.guardian_form_valid &&
        p.application_form_valid && p.sibling_formset_valid &&
        p.document_formset_valid) = true ∧
      (apply_bursary today sites w user (some p) newAppId).1 =
        .redirectDashboard) := by
  refine ⟨?_, ?_, ?_⟩
  · intro p hinv
    simp only [apply_bursary]
    split
    · exact ⟨rfl, rfl, rfl, rfl, rfl⟩
    · split
      · exact ⟨rfl, rfl, rfl, rfl, rfl⟩
      · split
        · exact ⟨rfl, rfl, rfl, rfl, rfl⟩
        · simp only [hinv, Bool.false_eq_true, if_false]
          exact ⟨trivial, trivial, trivial, trivial, trivial⟩
  · simp only [apply_bursary]
    split
    · rfl
    · split
      · rfl
      · split
        · rfl
        · rfl
  · intro p heff
    cases hv : (p.student_form_valid && p.guardian_form_valid &&
        p.application_form_valid && p.sibling_formset_valid &&
        p.document_formset_valid) with
    | false =>
      exfalso
      apply heff
      simp only [apply_bursary]
      split
      · rfl
      · split
        · rfl
        · split
          · rfl
          · simp only [hv, Bool.false_eq_true, if_false]
    | true =>
      refine ⟨rfl, ?_⟩
      revert heff
      generalize hE : apply_bursary today sites w user (some p) newAppId = res
      intro heff
      simp only [apply_bursary] at hE
      split at hE
      · rw [← hE] at heff
        exact absurd rfl heff
      · split at hE
        · rw [← hE] at heff
          exact absurd rfl heff
        · split at hE
          · rw [← hE] at heff
            exact absurd rfl heff
          · rw [← hE]

/-- C9 witness: a POST with an invalid student form fires nothing. -/
theorem c9_all_or_nothing_witness :
    (apply_bursary 0 [] ⟨[], [], [], [], []⟩ 7
        (some ⟨false, true, true, true, true, id,
          ⟨1, lit "Mom", lit "mother", none, none, 100, lit "0700"⟩,
          ⟨some 3, none, 10000, 0, 10000⟩, [], []⟩) 9).2.2 = [] :=
  ((c9_all_or_nothing 0 [] ⟨[], [], [], [], []⟩ 7 9).1
    ⟨false, true, true, true, true, id,
      ⟨1, lit "Mom", lit "mother", none, none, 100, lit "0700"⟩,
      ⟨some 3, none, 10000, 0, 10000⟩, [], []⟩ (by decide)).2.2.2.2

/-! ## C3: at most one application per student -/

/-- C3: a student who already has a BursaryApplication cannot gain a
second one.  The routed submission path (apply_bursary) answers the
duplicate with the already-applied page, creating nothing and firing
nothing; the other submission endpoint, submit_bursary_application,
always receives None from its student lookup (user_student_attr), so
it redirects to the login page without touching the table. -/
theorem c3_at_most_one_application (today : Int) (sites : List SiteProfile)
    (w : WorldState) (user : UserId) (post : Option ApplyPost)
    (newAppId : AppId) (st : Student)
    (hopen : (match SiteProfile.get_active sites with
      | some sp => !sp.is_application_open today
      | none => false) = false)
    (hst : w.students.find? (fun s => s.user == user) = some st)
    (hex : w.applications.any (fun a => a.student == st.id) = true) :
    ((apply_bursary today sites w user post newAppId).1 = .alreadyApplied ∧
      (apply_bursary today sites w user post newAppId).2.1.applications =
        w.applications ∧
      (apply_bursary today sites w user post newAppId).2.2 = []) ∧
    (∀ db now nid,
      submit_bursary_application db user_student_attr now nid =
        (.redirectLogin, db)) := by
  constructor
  · rcases hga : SiteProfile.get_active sites with _ | sp
    · rcases hcs : st.constituency with _ | c
      · simp [apply_bursary, hga, hst, hcs, hex]
      · simp [apply_bursary, hga, hst, hcs, hex]
    · rw [hga] at hopen
      simp only [Bool.not_eq_false'] at hopen
      rcases hcs : st.constituency with _ | c
      · rcases hspc : sp.constituency with _ | c2
        · simp [apply_bursary, hga, hst, hcs, hspc, hopen, hex]
        · simp [apply_bursary, hga, hst, hcs, hspc, hopen, hex]
      · simp [apply_bursary, hga, hst, hcs, hopen, hex]
  · intro db now nid
    rfl

/-- C3 witness: deadline open, one student, one pending application. -/
theorem c3_at_most_one_application_witness :
    (apply_bursary 2
        [⟨none, some 3, lit "Constituency", true, some 10⟩]
        ⟨[⟨4, 7, lit "Ann", none, lit "Kim", none, lit "ADM1", none,
            lit "a@b.ke", lit "0712", lit "School", none, some 3⟩],
          [⟨1, 4, some 3, none, 10000, 0, 10000, none, 0, lit "constituency",
            lit "pending", none⟩], [], [], []⟩
        7 none 9).1 = .alreadyApplied ∧
    submit_bursary_application
        [⟨1, 4, some 3, none, 10000, 0, 10000, none, 0, lit "constituency",
          lit "pending", none⟩] user_student_attr 5 9 =
      (.redirectLogin,
        [⟨1, 4, some 3, none, 10000, 0, 10000, none, 0, lit "constituency",
          lit "pending", none⟩]) :=
  have h := c3_at_most_one_application 2
    [⟨none, some 3, lit "Constituency", true, some 10⟩]
    ⟨[⟨4, 7, lit "Ann", none, lit "Kim", none, lit "ADM1", none,
        lit "a@b.ke", lit "0712", lit "School", none, some 3⟩],
      [⟨1, 4, some 3, none, 10000, 0, 10000, none, 0, lit "constituency",
        lit "pending", none⟩], [], [], []⟩
    7 none 9
    ⟨4, 7, lit "Ann", none, lit "Kim", none, lit "ADM1", none,
      lit "a@b.ke", lit "0712", lit "School", none, some 3⟩
    (by decide) (by decide) (by decide)
  ⟨h.1.1, h.2
    [⟨1, 4, some 3, none, 10000, 0, 10000, none, 0, lit "constituency",
      lit "pending", none⟩] 5 9⟩

/-! ## C2: status lifecycle -/

/-- C2 counterexample: the routed officer status-update action never
checks the current status, so it moves an already-approved application
to rejected — applications do leave the approved state. -/
theorem c2_counterexample :
    update_application_status
        [⟨1, 4, some 1, none, 8000, 0, 8000, some 5000, 3, lit "constituency",
          lit "approved", none⟩]
        (some ⟨8, some 1, lit "constituency", true, false⟩) 1
        (lit "rejected") (lit "") .absent =
      (.redirectDashboard,
        [⟨1, 4, some 1, none, 8000, 0, 8000, some 5000, 3, lit "constituency",
          lit "rejected", some (lit "")⟩]) := by
  decide

/-- C2 (amended): the status field is only ever written as approved or
rejected (by update_application_status) or as pending (apply_bursary
creates fresh applications as pending), and no operation writes
verified; but the transitions are not confined to
pending→{approved,rejected}: update_application_status never reads the
current status, so it can also move an application out of approved or
rejected.  submit_bursary_application, whose code text would reset a
non-approved application to pending, always receives None from its
student lookup and therefore changes nothing. -/
theorem c2_status_writes :
    (∀ (db : List BursaryApplication) (officer : Option OfficerProfile)
        (aid : AppId) (ns fb : Str) (amt : AmountInput) (a' : BursaryApplication),
      a' ∈ (update_application_status db officer aid ns fb amt).2 →
      a' ∈ db ∨ a'.status = lit "approved" ∨ a'.status = lit "rejected") ∧
    (∀ (today : Int) (sites : List SiteProfile) (w : WorldState) (user : UserId)
        (post : Option ApplyPost) (nid : AppId) (a' : BursaryApplication),
      a' ∈ (apply_bursary today sites w user post nid).2.1.applications →
      a' ∈ w.applications ∨ a'.status = lit "pending") ∧
    (∀ (db : List BursaryApplication) (now : Int) (nid : AppId),
      (submit_bursary_application db user_student_attr now nid).2 = db) := by
  refine ⟨?_, ?_, ?_⟩
  · intro db officer aid ns fb amt a' ha
    simp only [update_application_status] at ha
    split at ha
    · exact Or.inl ha
    · split at ha
      · exact Or.inl ha
      · next hns =>
        have hns2 : (ns == lit "approved" || ns == lit "rejected") = true := by
          cases h : (ns == lit "approved" || ns == lit "rejected")
          · rw [h] at hns
            exact absurd rfl hns
          · rfl
        have hor : ns = lit "approved" ∨ ns = lit "rejected" := by
          rcases Bool.or_eq_true_iff.mp hns2 with h | h
          · exact Or.inl (eq_of_beq h)
          · exact Or.inr (eq_of_beq h)
        split at ha
        · exact Or.inl ha
        · split at ha
          · exact Or.inl ha
          · split at ha
            · exact Or.inl ha
            · rcases List.mem_map.mp ha with ⟨a, hmem, hfa⟩
              by_cases hid : (a.id == aid) = true
              · rw [hid] at hfa
                simp only [if_true] at hfa
                right
                rw [← hfa]
                exact hor
              · have hid0 : (a.id == aid) = false := by
                  cases h : (a.id == aid)
                  · rfl
                  · exact absurd h hid
                rw [hid0] at hfa
                simp only [Bool.false_eq_true, if_false] at hfa
                exact Or.inl (hfa ▸ hmem)
            · rcases List.mem_map.mp ha with ⟨a, hmem, hfa⟩
              by_cases hid : (a.id == aid) = true
              · rw [hid] at hfa
                simp only [if_true] at hfa
                right
                rw [← hfa]
                exact hor
              · have hid0 : (a.id == aid) = false := by
                  cases h : (a.id == aid)
                  · rfl
                  · exact absurd h hid
                rw [hid0] at hfa
                simp only [Bool.false_eq_true, if_false] at hfa
                exact Or.inl (hfa ▸ hmem)
  · intro today sites w user post nid a' ha
    simp only [apply_bursary] at ha
    split at ha
    · exact Or.inl ha
    · split at ha
      · exact Or.inl ha
      · split at ha
        · exact Or.inl ha
        · split at ha
          · exact Or.inl ha
          · split at ha
            · rcases List.mem_append.mp ha with h | h
              · left
                revert h
                split <;> exact fun hh => hh
              · right
                have ha2 := List.mem_singleton.mp h
                rw [ha2]
            · exact Or.inl ha
  · intro db now nid
    rfl

/-- C2 witness: the re-transitioned application from the counterexample
scenario carries the written status rejected. -/
theorem c2_status_writes_witness :
    (⟨1, 4, some 1, none, 8000, 0, 8000, some 5000, 3, lit "constituency",
        lit "rejected", some (lit "")⟩ : BursaryApplication) ∈
      [(⟨1, 4, some 1, none, 8000, 0, 8000, some 5000, 3, lit "constituency",
        lit "approved", none⟩ : BursaryApplication)] ∨
    ((⟨1, 4, some 1, none, 8000, 0, 8000, some 5000, 3, lit "constituency",
        lit "rejected", some (lit "")⟩ : BursaryApplication).status =
        lit "approved" ∨
      (⟨1, 4, some 1, none, 8000, 0, 8000, some 5000, 3, lit "constituency",
        lit "rejected", some (lit "")⟩ : BursaryApplication).status =
        lit "rejected") :=
  c2_status_writes.1
    [⟨1, 4, some 1, none, 8000, 0, 8000, some 5000, 3, lit "constituency",
      lit "approved", none⟩]
    (some ⟨8, some 1, lit "constituency", true, false⟩) 1
    (lit "rejected") (lit "") .absent
    ⟨1, 4, some 1, none, 8000, 0, 8000, some 5000, 3, lit "constituency",
      lit "rejected", some (lit "")⟩
    (by decide)

/-! ## C1: officer scoping -/

/-- C1 counterexample: officer_applications never consults the acting
officer's profile, so an application whose constituency and
bursary_type both differ from the officer's is still listed — here an
officer scoped to constituency 1 / "constituency" sees a county-type
application of constituency 2. -/
theorem c1_counterexample :
    (⟨1, 4, some 2, none, 1000, 0, 1000, none, 0, lit "county",
        lit "pending", none⟩ : BursaryApplication) ∈
      officer_applications
        [⟨4, 7, lit "Ann", none, lit "Kim", none, lit "ADM1", none,
          lit "a@b.ke", lit "0712", lit "School", none, some 2⟩]
        [⟨1, 4, some 2, none, 1000, 0, 1000, none, 0, lit "county",
          lit "pending", none⟩]
        (lit "") (lit "") ∧
    (⟨1, 4, some 2, none, 1000, 0, 1000, none, 0, lit "county",
        lit "pending", none⟩ : BursaryApplication).constituency ≠
      (⟨8, some 1, lit "constituency", true, false⟩ :
        OfficerProfile).constituency ∧
    (⟨1, 4, some 2, none, 1000, 0, 1000, none, 0, lit "county",
        lit "pending", none⟩ : BursaryApplication).bursary_type ≠
      (⟨8, some 1, lit "constituency", true, false⟩ :
        OfficerProfile).bursary_type := by
  decide

/-- C1 (amended): the officer dashboard queryset, the application
detail page and the status-update action each restrict an officer to
applications matching both their constituency and their bursary_type;
the officer_applications list view applies no such scoping (see the
counterexample). -/
theorem c1_officer_scope :
    (∀ (db : List BursaryApplication) (o : OfficerProfile)
        (wf : Option WardId) (sf : Option Str) (a : BursaryApplication),
      a ∈ officer_dashboard_apps db o wf sf →
      a.constituency = o.constituency ∧ a.bursary_type = o.bursary_type) ∧
    (∀ (db : List BursaryApplication) (o : OfficerProfile) (aid : AppId)
        (a : BursaryApplication),
      application_detail db (some o) aid = .render a →
      a.constituency = o.constituency ∧ a.bursary_type = o.bursary_type) ∧
    (∀ (db : List BursaryApplication) (o : OfficerProfile) (aid : AppId)
        (ns fb : Str) (amt : AmountInput) (a' : BursaryApplication),
      a' ∈ (update_application_status db (some o) aid ns fb amt).2 →
      a' ∈ db ∨
        (a'.constituency = o.constituency ∧
          a'.bursary_type = o.bursary_type)) := by
  refine ⟨?_, ?_, ?_⟩
  · intro db o wf sf a ha
    have hbase : a ∈ db.filter (fun a =>
        a.bursary_type == o.bursary_type && a.constituency == o.constituency) := by
      rcases wf with _ | wv <;> rcases sf with _ | sv <;>
        simp only [officer_dashboard_apps] at ha
      · exact ha
      · exact (List.mem_filter.mp ha).1
      · exact (List.mem_filter.mp ha).1
      · exact (List.mem_filter.mp (List.mem_filter.mp ha).1).1
    have hpred := (List.mem_filter.mp hbase).2
    rcases Bool.and_eq_true_iff.mp hpred with ⟨h1, h2⟩
    exact ⟨eq_of_beq h2, eq_of_beq h1⟩
  · intro db o aid a hres
    simp only [application_detail] at hres
    split at hres
    · exact DetailResponse.noConfusion hres
    · next application hfound =>
      split at hres
      · exact DetailResponse.noConfusion hres
      · next hscope =>
        have ha := DetailResponse.render.inj hres
        have hscope2 : (application.constituency != o.constituency ||
            application.bursary_type != o.bursary_type) = false := by
          cases h : (application.constituency != o.constituency ||
              application.bursary_type != o.bursary_type)
          · rfl
          · exact absurd h hscope
        rcases Bool.or_eq_false_iff.mp hscope2 with ⟨h1, h2⟩
        subst ha
        exact ⟨eq_of_beq (by simpa using h1), eq_of_beq (by simpa using h2)⟩
  · intro db o aid ns fb amt a' ha
    simp only [update_application_status] at ha
    split at ha
    · exact Or.inl ha
    · next application hfound =>
      split at ha
      · exact Or.inl ha
      · split at ha
        · exact Or.inl ha
        · next hscope =>
          have hscope2 : (application.constituency != o.constituency ||
              application.bursary_type != o.bursary_type) = false := by
            cases h : (application.constituency != o.constituency ||
                application.bursary_type != o.bursary_type)
            · rfl
            · exact absurd h hscope
          rcases Bool.or_eq_false_iff.mp hscope2 with ⟨h1, h2⟩
          have hcon : application.constituency = o.constituency :=
            eq_of_beq (by simpa using h1)
          have hbt : application.bursary_type = o.bursary_type :=
            eq_of_beq (by simpa using h2)
          split at ha
          · exact Or.inl ha
          · rcases List.mem_map.mp ha with ⟨a, hmem, hfa⟩
            by_cases hid : (a.id == aid) = true
            · rw [hid] at hfa
              simp only [if_true] at hfa
              right
              rw [← hfa]
              exact ⟨hcon, hbt⟩
            · have hid0 : (a.id == aid) = false := by
                cases h : (a.id == aid)
                · rfl
                · exact absurd h hid
              rw [hid0] at hfa
              simp only [Bool.false_eq_true, if_false] at hfa
              exact Or.inl (hfa ▸ hmem)
          · rcases List.mem_map.mp ha with ⟨a, hmem, hfa⟩
            by_cases hid : (a.id == aid) = true
            · rw [hid] at hfa
              simp only [if_true] at hfa
              right
              rw [← hfa]
              exact ⟨hcon, hbt⟩
            · have hid0 : (a.id == aid) = false := by
                cases h : (a.id == aid)
                · rfl
                · exact absurd h hid
              rw [hid0] at hfa
              simp only [Bool.false_eq_true, if_false] at hfa
              exact Or.inl (hfa ▸ hmem)

/-- C1 witness: a scope-matching application on the dashboard. -/
theorem c1_officer_scope_witness :
    (⟨1, 4, some 1, none, 1000, 0, 1000, none, 0, lit "constituency",
        lit "pending", none⟩ : BursaryApplication).constituency =
      (⟨8, some 1, lit "constituency", true, false⟩ :
        OfficerProfile).constituency ∧
    (⟨1, 4, some 1, none, 1000, 0, 1000, none, 0, lit "constituency",
        lit "pending", none⟩ : BursaryApplication).bursary_type =
      (⟨8, some 1, lit "constituency", true, false⟩ :
        OfficerProfile).bursary_type :=
  c1_officer_scope.1
    [⟨1, 4, some 1, none, 1000, 0, 1000, none, 0, lit "constituency",
      lit "pending", none⟩]
    ⟨8, some 1, lit "constituency", true, false⟩ none none
    ⟨1, 4, some 1, none, 1000, 0, 1000, none, 0, lit "constituency",
      lit "pending", none⟩
    (by decide)
